import Mathlib

/-!
Verification of the madam media-asset library against its specification.

The embedding covers:
* a model of seekable in-memory byte streams (Python binary file objects);
* `Exiv2Processor` from `madam/exiv2.py` (`read`, `strip`, `combine`),
  with the external pyexiv2 library abstracted as a narrow interface
  (`Exiv2Lib`) of parse / tag-validity / write operations, and with the
  temporary-file discipline made observable as a trace of resource events;
* `readJpeg` from `adam/image.py`;
* the `Madam` dispatcher `read` (absent from the sources; modelled from
  the specification).
-/

set_option linter.unusedVariables false

/-- A seekable in-memory byte stream: content together with the current
read position.  Models a Python binary file object or `io.BytesIO`. -/
structure ByteStream where
  content : List Nat
  pos : Nat
deriving DecidableEq

/-- Python `file.read()` with no size argument: returns every byte from
the current position to the end and leaves the position at end-of-file. -/
def ByteStream.readAll (s : ByteStream) : List Nat × ByteStream :=
  (s.content.drop s.pos, ⟨s.content, s.content.length⟩)

/-- Python `file.seek(0)`: reset the read position to the start. -/
def ByteStream.seek0 (s : ByteStream) : ByteStream :=
  ⟨s.content, 0⟩

/-- The bytes still readable from the current position. -/
def ByteStream.readable (s : ByteStream) : List Nat :=
  s.content.drop s.pos

/-- The error kinds surfaced by the library: `UnsupportedFormatError`
from `madam.core`, and Python `TypeError` for contract violations. -/
inductive MadamError where
  | unsupportedFormat (msg : String)
  | typeError (msg : String)
deriving DecidableEq

/-- A temporary-resource event: creation or deletion of the spooled
temporary file used for the exiv2 library. -/
inductive REvent where
  | acquire
  | release
deriving DecidableEq

/-- Outcome of one `Exiv2Processor` call: the returned value or raised
error, the caller-visible state of the input stream after the call, and
the trace of temporary-resource events the call performed. -/
structure ExecResult (α : Type) where
  result : Except MadamError α
  stream : ByteStream
  events : List REvent

/-- The narrow contract of the external exiv2/pyexiv2 library: parse a
file into its native tag list (`none` models an `OSError` on a file the
library cannot read), test whether a native key names a valid target tag
(a failed lookup models pyexiv2 raising `KeyError`), and write a tag
list back into a file, returning the new file bytes. -/
structure Exiv2Lib where
  parse : List Nat → Option (List (String × String))
  validKey : String → Bool
  write : List Nat → List (String × String) → List Nat

/-- What `Exiv2Processor.read` can hand back to its caller: either the
pyexiv2 native parsed-metadata object or a plain mapping.  The two
constructors keep the distinction the specification draws between the
library-native object and a plain dict. -/
inductive ReadResult where
  | nativeObject (tags : List (String × String))
  | mapping (tags : List (String × String))
deriving DecidableEq

/-- The key/value pairs carried by a `ReadResult`, whichever shape it has. -/
def ReadResult.tags : ReadResult → List (String × String)
  | .nativeObject t => t
  | .mapping t => t

/-- Whether a `ReadResult` is a plain mapping. -/
def ReadResult.isMapping : ReadResult → Bool
  | .nativeObject _ => false
  | .mapping _ => true

/-- The `format` property of `Exiv2Processor`. -/
def Exiv2Processor.format : String := "exif"

/-- `Exiv2Processor.read` (madam/exiv2.py lines 15-27): spool the input
stream to a temporary file inside a `with` block, parse it with the
library, raise `UnsupportedFormatError` if the library fails, and return
the library's parsed-metadata object.  (Lines 24-26 of the source build
an `exif` dict from the native keys, but line 27 returns the native
`metadata` object; the dict is dead code, so the returned value is the
native object.)  The `with` block deletes the temporary file on both the
success path and the raising path, which the event trace records. -/
def Exiv2Processor.read (lib : Exiv2Lib) (file : ByteStream) : ExecResult ReadResult :=
  let r := file.readAll
  match lib.parse r.1 with
  | none => ⟨.error (.unsupportedFormat "Unknown file format."), r.2, [.acquire, .release]⟩
  | some tags => ⟨.ok (.nativeObject tags), r.2, [.acquire, .release]⟩

/-- `Exiv2Processor.strip` (madam/exiv2.py lines 29-41): spool the input
to a temporary file, parse it (raising `UnsupportedFormatError` on
failure), clear all tags, write the cleared tag set back, and return the
re-read temporary file's bytes.  The whole body sits inside the `with`
block, so the temporary file is deleted on every exit path. -/
def Exiv2Processor.strip (lib : Exiv2Lib) (file : ByteStream) : ExecResult (List Nat) :=
  let r := file.readAll
  match lib.parse r.1 with
  | none => ⟨.error (.unsupportedFormat "Unknown file format."), r.2, [.acquire, .release]⟩
  | some _tags => ⟨.ok (lib.write r.1 []), r.2, [.acquire, .release]⟩

/-- `Exiv2Processor.__to_exiv2_key` (madam/exiv2.py lines 63-65). -/
def toExiv2Key (key : String) : String :=
  "Exif." ++ key

/-- Setting `exiv2_metadata[exiv2_key] = value`: replace the value when
the key is already present, otherwise append the new tag. -/
def upsert (tags : List (String × String)) (k v : String) : List (String × String) :=
  if tags.any (fun kv => kv.1 = k) then
    tags.map (fun kv => if kv.1 = k then (k, v) else kv)
  else
    tags ++ [(k, v)]

/-- Python `repr`-style rendering of a metadata mapping, as interpolated
by `'... %s' % metadata` in the source's error message. -/
def reprMap (md : List (String × String)) : String :=
  "\x7b" ++ String.intercalate ", " (md.map (fun kv => kv.1 ++ ": " ++ kv.2)) ++ "\x7d"

/-- The loop of `Exiv2Processor.combine` (madam/exiv2.py lines 52-57):
for each metadata key in order, translate it with `__to_exiv2_key` and
set the tag; a `KeyError` from the library (an invalid target tag) is
turned into an `UnsupportedFormatError` whose message interpolates the
whole original mapping `md0`. -/
def combineTags (lib : Exiv2Lib) (md0 : List (String × String)) :
    List (String × String) → List (String × String) → Except MadamError (List (String × String))
  | tags, [] => .ok tags
  | tags, (k, v) :: rest =>
    if lib.validKey (toExiv2Key k) then
      combineTags lib md0 (upsert tags (toExiv2Key k) v) rest
    else
      .error (.unsupportedFormat ("Invalid metadata to be combined with essence: " ++ reprMap md0))

/-- `Exiv2Processor.combine` (madam/exiv2.py lines 43-61): spool the
essence to a temporary file, parse it (raising `UnsupportedFormatError`
with message "Unknown essence format." on failure), set each metadata
key after translating it to the native namespace, write the tags back,
and return the re-read temporary file's bytes.  Every path runs inside
the `with` block, so the temporary file is always deleted. -/
def Exiv2Processor.combine (lib : Exiv2Lib) (essence : ByteStream)
    (metadata : List (String × String)) : ExecResult (List Nat) :=
  let r := essence.readAll
  match lib.parse r.1 with
  | none => ⟨.error (.unsupportedFormat "Unknown essence format."), r.2, [.acquire, .release]⟩
  | some tags =>
    match combineTags lib metadata tags metadata with
    | .error e => ⟨.error e, r.2, [.acquire, .release]⟩
    | .ok tags' => ⟨.ok (lib.write r.1 tags'), r.2, [.acquire, .release]⟩

/-- The first metadata entry whose translated key is not a valid target
tag of the dialect: the entry on which `combine`'s loop raises. -/
def offendingKey (lib : Exiv2Lib) (md : List (String × String)) : Option (String × String) :=
  md.find? (fun kv => !lib.validKey (toExiv2Key kv.1))

/-- A small concrete exiv2 library used to evaluate the processor at
concrete inputs: the byte `[0]` is a tagless file, `[1]` is a file
carrying the artist tag, anything else is unparseable; writing encodes
only whether the tag list is empty; the valid target tags are
`Exif.Image.Artist` and `Exif.good`. -/
def toyLib : Exiv2Lib where
  parse := fun b =>
    if b = [0] then some []
    else if b = [1] then some [("Exif.Image.Artist", "A")]
    else none
  validKey := fun k => k == "Exif.Image.Artist" || k == "Exif.good"
  write := fun _b ts => if ts.isEmpty then [0] else [1]

/-- The value bound to `asset.essence`: the old `adam` Asset API lets a
reader store either bytes or any other Python value (`readJpeg` stores
the integer `0`). -/
inductive EssenceVal where
  | intVal (n : Int)
  | bytesVal (b : List Nat)
deriving DecidableEq

/-- An Asset of the old `adam.core` API, whose attributes are assigned
one by one after construction; a field is `none` when the reader never
assigned it. -/
structure AdamAsset where
  mime_type : Option String
  essence : Option EssenceVal
  width : Option Nat
  height : Option Nat
deriving DecidableEq

/-- `readJpeg` (adam/image.py lines 3-8): builds an `Asset`, sets
`mime_type` to `image/jpeg` and `essence` to the integer `0`, and
returns it.  The input stream is never touched and no size metadata is
assigned. -/
def readJpeg (jpeg_file : ByteStream) : AdamAsset :=
  { mime_type := some "image/jpeg"
    essence := some (.intVal 0)
    width := none
    height := none }

/-- Bytes standing for the 24 by 12 test JPEG produced by the
`jpeg_asset` fixture (JPEG SOI and APP0 marker prefix). -/
def jpegBytes : List Nat :=
  [255, 216, 255, 224, 0, 16]

/-- An Asset as produced by the dispatcher: essence bytes plus a
metadata mapping.  Modelled from the spec: `madam.core.Asset` is not
among the sources. -/
structure Asset where
  essence : List Nat
  metadata : List (String × String)

/-- A candidate essence processor as the dispatcher sees it: a function
from the input stream to a result (an Asset or a raised error) and the
stream state after the attempt. -/
abbrev Cand := ByteStream → Except MadamError Asset × ByteStream

/-- A candidate never changes the content of the stream it probes (it
may move the position). -/
def ContentPreserving (c : Cand) : Prop :=
  ∀ t : ByteStream, ((c t).2).content = t.content

/-- Outcome of a dispatcher call: the result, how many candidate
processors were invoked, and the caller-visible stream afterwards
(`none` when no stream was supplied). -/
structure DispatchOut where
  result : Except MadamError Asset
  attempted : Nat
  stream : Option ByteStream

/-- Outcome of the dispatcher's candidate loop. -/
structure TryOut where
  result : Except MadamError Asset
  attempted : Nat
  stream : ByteStream

/-- Modelled from the spec: the candidate loop of `Madam.read`
(`madam.core` is not among the sources).  Candidates are tried in
registry order on the stream restored to position 0; the first whose
`read` succeeds wins; an `UnsupportedFormatError` means "format
rejected, try the next candidate"; when every candidate has raised
`UnsupportedFormatError` the loop raises a single aggregated
`UnsupportedFormatError`. -/
def tryProcessors : List Cand → ByteStream → TryOut
  | [], s => ⟨.error (.unsupportedFormat "Unknown file format."), 0, s⟩
  | c :: rest, s =>
    match c s.seek0 with
    | (.ok a, s1) => ⟨.ok a, 1, s1⟩
    | (.error (.unsupportedFormat _), s1) =>
      let out := tryProcessors rest s1
      ⟨out.result, out.attempted + 1, out.stream⟩
    | (.error e, s1) => ⟨.error e, 1, s1⟩

/-- Modelled from the spec: `Madam.read` (`madam.core` is not among the
sources).  An absent file raises a `TypeError`-class contract-violation
error and an input with zero readable bytes raises
`UnsupportedFormatError`, both before any candidate processor is
attempted; otherwise the candidate loop runs. -/
def Madam.read (cands : List Cand) (file : Option ByteStream) : DispatchOut :=
  match file with
  | none => ⟨.error (.typeError "file must not be None"), 0, none⟩
  | some s =>
    if s.readable.isEmpty then
      ⟨.error (.unsupportedFormat "Empty file."), 0, some s⟩
    else
      let out := tryProcessors cands s
      ⟨out.result, out.attempted, some out.stream⟩

/-- A candidate that rejects every stream as an unsupported format. -/
def rejectAll : Cand :=
  fun t => (.error (.unsupportedFormat "Unknown file format."), t)

/-- Metadata mapping with a single key that has no valid target tag. -/
def md1 : List (String × String) := [("bad", "1")]

/-- Metadata mapping whose first key translates to a valid target tag
and whose second key has no valid target tag. -/
def md2 : List (String × String) := [("good", "2"), ("bad", "1")]

theorem upsert_mem {tags : List (String × String)} {k v : String} {kv : String × String}
    (h : kv ∈ upsert tags k v) : kv ∈ tags ∨ kv = (k, v) := by
  unfold upsert at h
  split at h
  · obtain ⟨a, ha, hfa⟩ := List.mem_map.1 h
    by_cases hak : a.1 = k
    · right; rw [if_pos hak] at hfa; exact hfa.symm
    · left; rw [if_neg hak] at hfa; exact hfa ▸ ha
  · rcases List.mem_append.1 h with h1 | h1
    · exact Or.inl h1
    · right; simpa using h1

theorem combineTags_of_invalid (lib : Exiv2Lib) (md0 : List (String × String)) :
    ∀ (l tags : List (String × String)),
      (∃ kv ∈ l, lib.validKey (toExiv2Key kv.1) = false) →
      combineTags lib md0 tags l
        = .error (.unsupportedFormat
            ("Invalid metadata to be combined with essence: " ++ reprMap md0)) := by
  intro l
  induction l with
  | nil =>
    intro tags h
    obtain ⟨kv, hkv, _⟩ := h
    exact absurd hkv (List.not_mem_nil kv)
  | cons hd tl ih =>
    intro tags h
    obtain ⟨k, v⟩ := hd
    by_cases hv : lib.validKey (toExiv2Key k) = true
    · obtain ⟨kv, hkv, hinv⟩ := h
      rcases List.mem_cons.1 hkv with heq | hmem
      · subst heq; rw [hv] at hinv; cases hinv
      · simp only [combineTags, hv, if_true]
        exact ih _ ⟨kv, hmem, hinv⟩
    · simp [combineTags, hv]

theorem combineTags_mem (lib : Exiv2Lib) (md0 : List (String × String)) :
    ∀ (l tagsIn tagsOut : List (String × String)),
      combineTags lib md0 tagsIn l = .ok tagsOut →
      ∀ kv ∈ tagsOut, kv ∈ tagsIn ∨ ∃ k, (k, kv.2) ∈ l ∧ kv.1 = "Exif." ++ k := by
  intro l
  induction l with
  | nil =>
    intro tagsIn tagsOut h kv hkv
    simp only [combineTags] at h
    cases h
    exact Or.inl hkv
  | cons hd tl ih =>
    intro tagsIn tagsOut h kv hkv
    obtain ⟨k, v⟩ := hd
    by_cases hv : lib.validKey (toExiv2Key k) = true
    · simp only [combineTags, hv, if_true] at h
      rcases ih _ _ h kv hkv with hmem | ⟨k1, hk1, hpre⟩
      · rcases upsert_mem hmem with h1 | h1
        · exact Or.inl h1
        · subst h1
          exact Or.inr ⟨k, List.mem_cons_self _ _, rfl⟩
      · exact Or.inr ⟨k1, List.mem_cons_of_mem _ hk1, hpre⟩
    · simp [combineTags, hv] at h

theorem tryProcessors_all_reject (cands : List Cand) (s : ByteStream)
    (h : ∀ c ∈ cands, ∀ t, ∃ m, (c t).1 = .error (.unsupportedFormat m)) :
    (tryProcessors cands s).result = .error (.unsupportedFormat "Unknown file format.") := by
  induction cands generalizing s with
  | nil => rfl
  | cons c rest ih =>
    obtain ⟨m, hm⟩ := h c (List.mem_cons_self _ _) s.seek0
    rcases hc : c s.seek0 with ⟨r, s1⟩
    rw [hc] at hm
    simp only at hm
    subst hm
    simp only [tryProcessors, hc]
    exact ih s1 (fun c1 hc1 t => h c1 (List.mem_cons_of_mem _ hc1) t)

theorem tryProcessors_content (cands : List Cand) (s : ByteStream)
    (h : ∀ c ∈ cands, ContentPreserving c) :
    ((tryProcessors cands s).stream).content = s.content := by
  induction cands generalizing s with
  | nil => rfl
  | cons c rest ih =>
    have hc1 : ((c s.seek0).2).content = s.content := h c (List.mem_cons_self _ _) s.seek0
    rcases hc : c s.seek0 with ⟨r, s1⟩
    rw [hc] at hc1
    simp only at hc1
    have hrest : ∀ c1 ∈ rest, ContentPreserving c1 :=
      fun c1 hmem => h c1 (List.mem_cons_of_mem _ hmem)
    cases r with
    | ok a => simp only [tryProcessors, hc]; exact hc1
    | error e =>
      cases e with
      | unsupportedFormat m =>
        simp only [tryProcessors, hc]
        exact (ih s1 hrest).trans hc1
      | typeError m => simp only [tryProcessors, hc]; exact hc1

/-- C1: for a valid JPEG input, the in-source image reader `readJpeg`
does set `mime_type` to the declared type, but it assigns no width or
height structural metadata at all and sets the essence to the integer
`0` instead of the content, contradicting the claim (and the repo's own
tests) that the returned Asset carries ground-truth size metadata. -/
theorem readJpeg_returns_no_size_metadata :
    (readJpeg ⟨jpegBytes, 0⟩).mime_type = some "image/jpeg"
    ∧ (readJpeg ⟨jpegBytes, 0⟩).width = none
    ∧ (readJpeg ⟨jpegBytes, 0⟩).height = none
    ∧ (readJpeg ⟨jpegBytes, 0⟩).essence = some (.intVal 0) :=
  ⟨rfl, rfl, rfl, rfl⟩

/-- C5: on a parseable essence, `Exiv2Processor.read` returns the
library's native parsed-metadata object, not a plain mapping — the
`exif` dict built in the body is dead code. -/
theorem exiv2_read_returns_native_object :
    (Exiv2Processor.read toyLib ⟨[1], 0⟩).result
      = .ok (.nativeObject [("Exif.Image.Artist", "A")])
    ∧ ∀ m : List (String × String),
        (Exiv2Processor.read toyLib ⟨[1], 0⟩).result ≠ .ok (.mapping m) := by
  constructor
  · rfl
  · intro m h
    rw [show (Exiv2Processor.read toyLib ⟨[1], 0⟩).result
          = .ok (.nativeObject [("Exif.Image.Artist", "A")]) from rfl] at h
    simp at h

/-- C9: every call to `Exiv2Processor.read`, `strip`, or `combine`
creates exactly one temporary file and deletes it before the call
returns or raises, on the success path and on every error path alike:
the resource-event trace is always acquire followed by release. -/
theorem exiv2_temp_resource_released_on_all_paths
    (lib : Exiv2Lib) (f : ByteStream) (md : List (String × String)) :
    (Exiv2Processor.read lib f).events = [REvent.acquire, REvent.release]
    ∧ (Exiv2Processor.strip lib f).events = [REvent.acquire, REvent.release]
    ∧ (Exiv2Processor.combine lib f md).events = [REvent.acquire, REvent.release] := by
  refine ⟨?_, ?_, ?_⟩
  · cases hp : lib.parse f.readAll.1 <;> simp [Exiv2Processor.read, hp]
  · cases hp : lib.parse f.readAll.1 <;> simp [Exiv2Processor.strip, hp]
  · cases hp : lib.parse f.readAll.1 with
    | none => simp [Exiv2Processor.combine, hp]
    | some tags =>
      cases hc : combineTags lib md tags md <;> simp [Exiv2Processor.combine, hp, hc]

/-- C10: each of `Exiv2Processor.read`, `strip`, and `combine` consumes
its input stream to end-of-file via an unrestricted `read()` and never
restores the position: afterwards the stream's position equals the
content length and a further read yields no bytes. -/
theorem exiv2_consumes_stream_to_eof
    (lib : Exiv2Lib) (f : ByteStream) (md : List (String × String)) :
    ((Exiv2Processor.read lib f).stream.pos = f.content.length
      ∧ ((Exiv2Processor.read lib f).stream.readAll).1 = [])
    ∧ ((Exiv2Processor.strip lib f).stream.pos = f.content.length
      ∧ ((Exiv2Processor.strip lib f).stream.readAll).1 = [])
    ∧ ((Exiv2Processor.combine lib f md).stream.pos = f.content.length
      ∧ ((Exiv2Processor.combine lib f md).stream.readAll).1 = []) := by
  refine ⟨?_, ?_, ?_⟩
  · cases hp : lib.parse (List.drop f.pos f.content) <;>
      simp [Exiv2Processor.read, ByteStream.readAll, hp]
  · cases hp : lib.parse (List.drop f.pos f.content) <;>
      simp [Exiv2Processor.strip, ByteStream.readAll, hp]
  · cases hp : lib.parse (List.drop f.pos f.content) with
    | none => simp [Exiv2Processor.combine, ByteStream.readAll, hp]
    | some tags =>
      cases hc : combineTags lib md tags md <;>
        simp [Exiv2Processor.combine, ByteStream.readAll, hp, hc]

/-- C2: reading never mutates the source content.  When every candidate
processor preserves its input stream's content, the dispatcher's `read`
hands back a stream with byte-identical content, and each of the
in-source `Exiv2Processor` operations leaves the caller's stream content
unchanged (only the position moves). -/
theorem madam_read_preserves_source_content (cands : List Cand)
    (h : ∀ c ∈ cands, ContentPreserving c) :
    (∀ s : ByteStream, ∃ s1, (Madam.read cands (some s)).stream = some s1
        ∧ s1.content = s.content)
    ∧ (∀ (lib : Exiv2Lib) (f : ByteStream),
        ((Exiv2Processor.read lib f).stream).content = f.content)
    ∧ (∀ (lib : Exiv2Lib) (f : ByteStream),
        ((Exiv2Processor.strip lib f).stream).content = f.content)
    ∧ (∀ (lib : Exiv2Lib) (f : ByteStream) (md : List (String × String)),
        ((Exiv2Processor.combine lib f md).stream).content = f.content) := by
  refine ⟨?_, ?_, ?_, ?_⟩
  · intro s
    by_cases he : s.readable.isEmpty
    · exact ⟨s, by simp [Madam.read, he], rfl⟩
    · exact ⟨(tryProcessors cands s).stream, by simp [Madam.read, he],
        tryProcessors_content cands s h⟩
  · intro lib f
    cases hp : lib.parse (List.drop f.pos f.content) <;>
      simp [Exiv2Processor.read, ByteStream.readAll, hp]
  · intro lib f
    cases hp : lib.parse (List.drop f.pos f.content) <;>
      simp [Exiv2Processor.strip, ByteStream.readAll, hp]
  · intro lib f md
    cases hp : lib.parse (List.drop f.pos f.content) with
    | none => simp [Exiv2Processor.combine, ByteStream.readAll, hp]
    | some tags =>
      cases hc : combineTags lib md tags md <;>
        simp [Exiv2Processor.combine, ByteStream.readAll, hp, hc]

/-- Witness for C2 at a concrete candidate list and stream. -/
theorem madam_read_preserves_source_content_witness :
    ∃ s1, (Madam.read [] (some ⟨[3, 1], 0⟩)).stream = some s1 ∧ s1.content = [3, 1] :=
  (madam_read_preserves_source_content []
    (fun c hc => absurd hc (List.not_mem_nil c))).1 ⟨[3, 1], 0⟩

/-- C3: when every candidate processor rejects the stream with
`UnsupportedFormatError`, the dispatcher's `read` raises one aggregated
`UnsupportedFormatError` and never returns an Asset. -/
theorem madam_read_aggregates_unsupported_format (cands : List Cand)
    (h : ∀ c ∈ cands, ∀ t, ∃ m, (c t).1 = .error (.unsupportedFormat m)) (s : ByteStream) :
    (∃ m, (Madam.read cands (some s)).result = .error (.unsupportedFormat m))
    ∧ ∀ a, (Madam.read cands (some s)).result ≠ .ok a := by
  have hmain : ∃ m, (Madam.read cands (some s)).result = .error (.unsupportedFormat m) := by
    by_cases he : s.readable.isEmpty
    · exact ⟨"Empty file.", by simp [Madam.read, he]⟩
    · refine ⟨"Unknown file format.", ?_⟩
      have := tryProcessors_all_reject cands s h
      simp [Madam.read, he, this]
  refine ⟨hmain, ?_⟩
  intro a ha
  obtain ⟨m, hm⟩ := hmain
  rw [ha] at hm
  cases hm

/-- Witness for C3: a single always-rejecting candidate on a nonempty
stream. -/
theorem madam_read_aggregates_unsupported_format_witness :
    (∃ m, (Madam.read [rejectAll] (some ⟨[7], 0⟩)).result = .error (.unsupportedFormat m))
    ∧ ∀ a, (Madam.read [rejectAll] (some ⟨[7], 0⟩)).result ≠ .ok a :=
  madam_read_aggregates_unsupported_format [rejectAll]
    (by
      intro c hc t
      rw [List.mem_singleton] at hc
      subst hc
      exact ⟨"Unknown file format.", rfl⟩)
    ⟨[7], 0⟩

/-- C4: an absent (`None`) input always raises the `TypeError`-class
contract-violation error — never `UnsupportedFormatError` — and a stream
with zero readable bytes always raises `UnsupportedFormatError`, in both
cases without attempting any candidate processor. -/
theorem madam_read_input_validation :
    (∀ cands : List Cand,
        (Madam.read cands none).result = .error (.typeError "file must not be None")
        ∧ (Madam.read cands none).attempted = 0
        ∧ ∀ m, (Madam.read cands none).result ≠ .error (.unsupportedFormat m))
    ∧ ∀ (cands : List Cand) (s : ByteStream), s.readable = [] →
        (Madam.read cands (some s)).result = .error (.unsupportedFormat "Empty file.")
        ∧ (Madam.read cands (some s)).attempted = 0 := by
  constructor
  · intro cands
    refine ⟨rfl, rfl, ?_⟩
    intro m hm
    simp [Madam.read] at hm
  · intro cands s hs
    have he : s.readable.isEmpty = true := by rw [hs]; rfl
    constructor <;> simp [Madam.read, he]

/-- Witness for C4 at concrete inputs: the `None` case and an empty
stream. -/
theorem madam_read_input_validation_witness :
    ((Madam.read [rejectAll] none).result = .error (.typeError "file must not be None")
      ∧ (Madam.read [rejectAll] none).attempted = 0
      ∧ ∀ m, (Madam.read [rejectAll] none).result ≠ .error (.unsupportedFormat m))
    ∧ ((Madam.read [rejectAll] (some ⟨[], 0⟩)).result
          = .error (.unsupportedFormat "Empty file.")
      ∧ (Madam.read [rejectAll] (some ⟨[], 0⟩)).attempted = 0) :=
  ⟨madam_read_input_validation.1 [rejectAll],
   madam_read_input_validation.2 [rejectAll] ⟨[], 0⟩ rfl⟩

/-- C6 counterexample: the error message of `combine` is not a function
of the offending key and its value — two mappings with the same
offending entry produce different messages, because the message
interpolates the whole mapping. -/
theorem exiv2_combine_error_not_key_specific :
    ¬ ∃ f : String → String → String,
      ∀ (md : List (String × String)) (k v : String),
        offendingKey toyLib md = some (k, v) →
        (Exiv2Processor.combine toyLib ⟨[1], 0⟩ md).result
          = .error (.unsupportedFormat (f k v)) := by
  rintro ⟨f, hf⟩
  have h1 := hf md1 "bad" "1" rfl
  have h2 := hf md2 "bad" "1" rfl
  rw [show (Exiv2Processor.combine toyLib ⟨[1], 0⟩ md1).result
        = .error (.unsupportedFormat
            ("Invalid metadata to be combined with essence: " ++ reprMap md1)) from rfl] at h1
  rw [show (Exiv2Processor.combine toyLib ⟨[1], 0⟩ md2).result
        = .error (.unsupportedFormat
            ("Invalid metadata to be combined with essence: " ++ reprMap md2)) from rfl] at h2
  injection h1 with h1a
  injection h1a with h1b
  injection h2 with h2a
  injection h2a with h2b
  have : ("Invalid metadata to be combined with essence: " ++ reprMap md1)
      = ("Invalid metadata to be combined with essence: " ++ reprMap md2) :=
    h1b.trans h2b.symm
  exact absurd this (by decide)

/-- C6 amended: when any metadata key has no valid target tag in the
dialect, `combine` raises `UnsupportedFormatError` whose message embeds
the entire metadata mapping (so the offending key and its value appear
only as part of the full mapping, not singled out). -/
theorem exiv2_combine_error_reports_whole_mapping (lib : Exiv2Lib) (f : ByteStream)
    (tags md : List (String × String))
    (hp : lib.parse (List.drop f.pos f.content) = some tags)
    (hbad : ∃ kv ∈ md, lib.validKey (toExiv2Key kv.1) = false) :
    (Exiv2Processor.combine lib f md).result
      = .error (.unsupportedFormat
          ("Invalid metadata to be combined with essence: " ++ reprMap md)) := by
  have hc := combineTags_of_invalid lib md md tags hbad
  simp [Exiv2Processor.combine, ByteStream.readAll, hp, hc]

/-- Witness for the amended C6 at a concrete library, essence, and
mapping. -/
theorem exiv2_combine_error_reports_whole_mapping_witness :
    (Exiv2Processor.combine toyLib ⟨[1], 0⟩ md1).result
      = .error (.unsupportedFormat
          ("Invalid metadata to be combined with essence: " ++ reprMap md1)) :=
  exiv2_combine_error_reports_whole_mapping toyLib ⟨[1], 0⟩
    [("Exif.Image.Artist", "A")] md1 rfl
    ⟨("bad", "1"), by decide, by decide⟩

/-- C7 counterexample: it is false that the native key scheme never
appears in what `read` returns to its caller — on a concrete essence the
returned tags contain a key of the form `Exif.` followed by a logical
key. -/
theorem exiv2_native_keys_leak_to_callers :
    ¬ ∀ res : ReadResult, (Exiv2Processor.read toyLib ⟨[1], 0⟩).result = .ok res →
        ∀ kv ∈ res.tags, ¬ ∃ k, kv.1 = toExiv2Key k := by
  intro h
  exact h (.nativeObject [("Exif.Image.Artist", "A")]) rfl
    ("Exif.Image.Artist", "A") (List.mem_singleton.2 rfl)
    ⟨"Image.Artist", by decide⟩

/-- C7 amended: every key `combine` writes into the essence is the
native key obtained by prefixing the logical key with `Exif.` (or was
already present in the essence), but the native key scheme does appear
in the value `read` returns to callers: `read` hands back the library's
native tags with their native keys unchanged. -/
theorem exiv2_combine_prefixes_and_read_exposes_native_keys :
    (∀ (lib : Exiv2Lib) (md0 tagsIn md tagsOut : List (String × String)),
        combineTags lib md0 tagsIn md = .ok tagsOut →
        ∀ kv ∈ tagsOut, kv ∈ tagsIn ∨ ∃ k, (k, kv.2) ∈ md ∧ kv.1 = "Exif." ++ k)
    ∧ (∀ (lib : Exiv2Lib) (f : ByteStream) (tags : List (String × String)),
        lib.parse (List.drop f.pos f.content) = some tags →
        (Exiv2Processor.read lib f).result = .ok (.nativeObject tags)) := by
  constructor
  · intro lib md0 tagsIn md tagsOut h kv hkv
    exact combineTags_mem lib md0 md tagsIn tagsOut h kv hkv
  · intro lib f tags hp
    simp [Exiv2Processor.read, ByteStream.readAll, hp]

/-- Witness for the amended C7: a written tag is the `Exif.`-prefixed
logical key, and `read` returns the native-keyed tags on a concrete
essence. -/
theorem exiv2_combine_prefixes_and_read_exposes_native_keys_witness :
    (("Exif.Image.Artist", "B") ∈ ([("Exif.Image.Artist", "A")] : List (String × String))
      ∨ ∃ k, (k, "B") ∈ ([("Image.Artist", "B")] : List (String × String))
          ∧ "Exif.Image.Artist" = "Exif." ++ k)
    ∧ (Exiv2Processor.read toyLib ⟨[1], 0⟩).result
        = .ok (.nativeObject [("Exif.Image.Artist", "A")]) :=
  ⟨exiv2_combine_prefixes_and_read_exposes_native_keys.1 toyLib
      [("Image.Artist", "B")] [("Exif.Image.Artist", "A")] [("Image.Artist", "B")]
      [("Exif.Image.Artist", "B")] rfl ("Exif.Image.Artist", "B") (List.mem_singleton.2 rfl),
   exiv2_combine_prefixes_and_read_exposes_native_keys.2 toyLib ⟨[1], 0⟩
      [("Exif.Image.Artist", "A")] rfl⟩

/-- C8: on a parseable essence, `strip` succeeds and the bytes it
returns carry no tags of the dialect: re-reading them through the
library yields the empty mapping, provided the library satisfies its
narrow contract that writing an empty tag set produces a file that
parses back to no tags. -/
theorem exiv2_strip_clears_all_tags (lib : Exiv2Lib)
    (hw : ∀ b, lib.parse (lib.write b []) = some [])
    (f : ByteStream) (tags : List (String × String))
    (hp : lib.parse (List.drop f.pos f.content) = some tags) :
    ∃ out, (Exiv2Processor.strip lib f).result = .ok out ∧ lib.parse out = some [] := by
  refine ⟨lib.write (List.drop f.pos f.content) [], ?_, hw _⟩
  simp [Exiv2Processor.strip, ByteStream.readAll, hp]

/-- Witness for C8 at a concrete library and essence. -/
theorem exiv2_strip_clears_all_tags_witness :
    ∃ out, (Exiv2Processor.strip toyLib ⟨[1], 0⟩).result = .ok out
      ∧ toyLib.parse out = some [] :=
  exiv2_strip_clears_all_tags toyLib (fun _b => rfl) ⟨[1], 0⟩
    [("Exif.Image.Artist", "A")] rfl
